import Mathlib

/-!
Verification of the Solaar CLI dispatch layer (`lib/solaar/cli/__init__.py`).

The development shallowly embeds the resolution engine (`_find_receiver`,
`_find_device`), the handle builders (`_receivers`, `_receivers_and_devices`)
and the top-level `run` dispatcher.  Strings are modelled as Lean `String`s,
with all comparisons performed on their underlying character lists so that
concrete instances evaluate inside the kernel; Python's `str.lower` is
modelled on ASCII (the repository's identifiers are ASCII).  Python's
truthiness tests are made explicit (`None`/`0` falsy).  The `assert`
statements at the top of the resolvers are modelled as hypotheses of the
theorems that speak about them.
-/

/-- Characters of a string; Python string indexing/iteration works on these. -/
def strChars (s : String) : List Char := s.data

/-- ASCII model of Python `str.lower()` applied to a string, as a char list. -/
def lowerStr (s : String) : List Char := s.data.map Char.toLower

/-- Predicate `leadsWith pat l`: `pat` occurs at the very front of `l`
(the base case of Python's substring test `pat in l`). -/
def leadsWith : List Char → List Char → Bool
  | [], _ => true
  | _ :: _, [] => false
  | a :: as, b :: bs => a == b && leadsWith as bs

/-- Model of Python's substring containment `pat in hay` on char lists. -/
def containsSub (pat : List Char) : List Char → Bool
  | [] => leadsWith pat []
  | c :: t => leadsWith pat (c :: t) || containsSub pat t

/-- A live device handle: the fields of a `Device` object that
`_find_device` reads (`serial`, `codename`, `str(kind)`, `name`). -/
structure DeviceH where
  serial : String
  codename : String
  kind : String
  name : String
deriving DecidableEq, Repr

/-- A live receiver handle: the fields of a `Receiver` object the CLI reads.
`slot` models indexing `r[n]` (a `Device` or `None`), `rcount` models
`r.count()` (kept as an integer because the scan counter is decremented and
compared to zero), and `devices` is the sequence produced by iterating `r`. -/
structure ReceiverH where
  name : String
  serial : Option String
  rcount : Int
  slot : Nat → Option DeviceH
  devices : List DeviceH

/-- An element of the handle list built by `run`: either a receiver
(`isDevice` false) or a directly wired device (`isDevice` true). -/
inductive Handle where
  | recv (r : ReceiverH)
  | wired (d : DeviceH)

/-- Python `int(c)` on a one-character ASCII string: decimal digits parse,
everything else raises. -/
def charToDigit (c : Char) : Option Nat :=
  if c.isDigit then some (c.toNat - '0'.toNat) else none

/-- The `number` computed at the top of `_find_device`: set only when the
token has exactly one character that parses as an integer, and reset to
`None` when that integer exceeds 6. -/
def slotNumber (name : String) : Option Nat :=
  match strChars name with
  | [c] =>
    match charToDigit c with
    | none => none
    | some n => if n > 6 then none else some n
  | _ => none

/-- Python truthiness of `number` in `if number:` (`None` and `0` falsy). -/
def numberTruthy : Option Nat → Bool
  | some n => n != 0
  | none => false

/-- The eager slot query of `_find_device`: `if number: dev = r[number];
if dev: yield dev`. -/
def slotLookup (number : Option Nat) (r : ReceiverH) : List DeviceH :=
  match number with
  | some n =>
    if n != 0 then
      match r.slot n with
      | some d => [d]
      | none => []
    else []
  | none => []

/-- The match test of the `_find_device` scan: the raw token compared with
the lowercased serial, codename, `str(kind)`, or as a substring of the
lowercased name. -/
def deviceMatches (name : String) (d : DeviceH) : Bool :=
  strChars name == lowerStr d.serial
    || strChars name == lowerStr d.codename
    || strChars name == lowerStr d.kind
    || containsSub (strChars name) (lowerStr d.name)

/-- The count-bounded scan loop of `_find_device`: yield each matching
device, decrement `count` after each examined device, and break as soon as
`count` reaches exactly zero. -/
def scanDevices (name : String) : Int → List DeviceH → List DeviceH
  | _, [] => []
  | count, d :: ds =>
    let ys := if deviceMatches name d then [d] else []
    if count - 1 = 0 then ys else ys ++ scanDevices name (count - 1) ds

/-- The body of the `_find_device` loop for a single entry of the handle
list: a receiver gets the eager slot query followed by the count-bounded
scan of its paired devices; a wired device is pinged (a no-op here), wrapped
into a one-element list, and scanned with `count = 1`. -/
def findDeviceFrom (name : String) (number : Option Nat) : Handle → List DeviceH
  | .recv r => slotLookup number r ++ scanDevices name r.rcount r.devices
  | .wired d => scanDevices name 1 [d]

/-- Model of `_find_device`: the sequence of devices yielded for a token over the
handle list (the generator, fully forced).  The asserts on nonempty input
and token are carried as hypotheses of the theorems below. -/
def find_device (handles : List Handle) (name : String) : List DeviceH :=
  handles.flatMap (findDeviceFrom name (slotNumber name))

/-- The match test of `_find_receiver`: raw token as substring of the
lowercased receiver name, or equal to the lowercased serial when the serial
is not `None`. -/
def receiverMatches (name : String) (r : ReceiverH) : Bool :=
  containsSub (strChars name) (lowerStr r.name)
    || match r.serial with
       | some s => strChars name == lowerStr s
       | none => false

/-- Model of `_find_receiver`: first receiver matching the token, else `None`. -/
def find_receiver (receivers : List ReceiverH) (name : String) : Option ReceiverH :=
  receivers.find? (receiverMatches name)

/-- A raw hardware descriptor as consumed by the builders: `path` and
`isDevice` are the fields read by `_receivers` / `_receivers_and_devices`. -/
structure DevInfo where
  path : String
  isDevice : Bool
deriving DecidableEq, Repr

/-- Outcome of one external construction call (`create_receiver` /
`create_device`): the call may raise (with message `str(e)`), or return a
handle, or return a falsy result (`None`). -/
inductive BuildResult where
  | raised (msg : String)
  | built (h : Option Handle)

/-- Value of `NAME.lower()`: the program name used in composed error messages. -/
def programName : String := "solaar"

/-- The path filter at the top of the builder loops: skip a descriptor when
a `dev_path` was supplied and differs from the descriptor's `path`. -/
def skipByPath (devPath : Option String) (i : DevInfo) : Bool :=
  match devPath with
  | some p => p != i.path
  | none => false

/-- The builder loop shared by `_receivers` and `_receivers_and_devices`,
forced to a list as `run` does: filtered descriptors are skipped, a raised
construction exception aborts the whole process via
`sys.exit(f"{NAME.lower()}: error: {str(e)}")` (modelled as `Except.error`
carrying that message), a falsy handle is dropped, and a live handle is
kept in order. -/
def buildHandles (create : DevInfo → BuildResult) (devPath : Option String) :
    List DevInfo → Except String (List Handle)
  | [] => .ok []
  | i :: is =>
    if skipByPath devPath i then buildHandles create devPath is
    else
      match create i with
      | .raised e => .error (programName ++ ": error: " ++ e)
      | .built none => buildHandles create devPath is
      | .built (some h) =>
        match buildHandles create devPath is with
        | .error m => .error m
        | .ok hs => .ok (h :: hs)

/-- The handles a fault-free builder run produces: the non-skipped
descriptors' construction results with falsy ones dropped. -/
def goodHandles (create : DevInfo → BuildResult) (devPath : Option String)
    (infos : List DevInfo) : List Handle :=
  (infos.filter (fun i => !skipByPath devPath i)).filterMap
    (fun i =>
      match create i with
      | .raised _ => none
      | .built h => h)

/-- The parse result of the empty-invocation branch of `run`: which
attributes the namespace object carries, and the `action` default if any.
Modelled from the argument-parsing library's interface: `"cmd" not in args`
is an attribute-membership test on the parsed namespace. -/
structure ParsedArgs where
  attrs : List String
  action : Option String

/-- The possible terminations of `run` that this layer itself decides:
a usage message plus exit status 2, an error message on the error stream
with a failure status, an assertion failure, or dispatch to an action
module with the built handle list. -/
inductive Outcome where
  | usageExit (status : Nat) (stderrMsg : String)
  | errorExit (status : Nat) (stderrMsg : String)
  | assertFailed (what : String)
  | dispatch (action : String) (handles : List Handle)

/-- The fixed set of subcommands registered by `_create_parser`. -/
def actionsList : List String := ["show", "probe", "profiles", "config", "pair", "unpair"]

/-- Actions that enumerate receivers and wired devices; the others
enumerate receivers only. -/
def usesDeviceEnumeration (action : String) : Bool :=
  action == "show" || action == "probe" || action == "config" || action == "profiles"

/-- Modelled from the spec: the usage text the parser prints to the error
stream (`_cli_parser.print_usage(sys.stderr)`); its content lives in the
external parsing library, only its presence matters here. -/
def usageMessage : String := "usage: solaar [-h] {show,probe,profiles,config,pair,unpair} ...\n"

/-- Modelled from the spec: `traceback.format_exc()` of the standard
library, a diagnostic trace text that contains the exception message. -/
def formatExc (msg : String) : String :=
  "Traceback (most recent call last):\n  ...\nException: " ++ msg

/-- The message of the exception raised by `run` on an empty handle list. -/
def noDeviceMessage : String :=
  "No supported device found. Use \x22lsusb\x22 and \x22bluetoothctl devices Connected\x22 to list connected devices."

/-- The action `run` settles on: the first CLI token when tokens were
passed; otherwise the parsed default, guarded by the `"cmd" not in args`
test for the parsing library's empty-invocation edge case. -/
def determinedAction (cliArgs : List String) (emptyParse : ParsedArgs) : Option String :=
  match cliArgs with
  | a :: _ => some a
  | [] => if "cmd" ∈ emptyParse.attrs then emptyParse.action else none

/-- Model of `run`: determine the action (exiting with status 2 and usage on the
error stream when none can be), assert it is registered, build the handle
list for the enumeration mode the action needs, fail with the composed
"no supported device" error when the list is empty, and otherwise dispatch
to the action module.  `enumRecv` and `enumBoth` are the forced results of
the two builder generators; an `Except.error` from them is the
`sys.exit` raised inside the generator (uncatchable by the `except
Exception` clause), carrying its message. -/
def run (cliArgs : List String) (emptyParse : ParsedArgs)
    (enumRecv enumBoth : Except String (List Handle)) : Outcome :=
  match determinedAction cliArgs emptyParse with
  | none => .usageExit 2 (usageMessage ++ programName ++ ": error: too few arguments\n")
  | some action =>
    if action ∈ actionsList then
      match (if usesDeviceEnumeration action then enumBoth else enumRecv) with
      | .error m => .errorExit 1 m
      | .ok [] => .errorExit 1 (programName ++ ": error: " ++ formatExc noDeviceMessage)
      | .ok hs => .dispatch action hs
    else .assertFailed "action in actions"

/-- The devices the `_find_device` scan loop examines for a given counter
value: the whole list when the decremented counter never hits exactly
zero, else the first `count` entries. -/
def examined : Int → List DeviceH → List DeviceH
  | _, [] => []
  | count, d :: ds => if count - 1 = 0 then [d] else d :: examined (count - 1) ds

/-- The device set one handle-list entry contributes to the scan: the
count-bounded slice of a receiver's paired devices, or the wired device
itself. -/
def examinedOf : Handle → List DeviceH
  | .recv r => examined r.rcount r.devices
  | .wired d => [d]

/-- Propositional form of the `_find_receiver` match test. -/
def receiverMatchProp (name : String) (r : ReceiverH) : Prop :=
  containsSub (strChars name) (lowerStr r.name) = true ∨
    ∃ s, r.serial = some s ∧ strChars name = lowerStr s

/-- A paired wireless device used in concrete instantiations. -/
def wDev : DeviceH :=
  { serial := "abc123", codename := "m510", kind := "mouse", name := "Wireless Mouse M510" }

/-- A receiver used in concrete instantiations: one paired device, present
in every slot. -/
def wRecv : ReceiverH :=
  { name := "Unifying Receiver", serial := some "def456", rcount := 1,
    slot := fun _ => some wDev, devices := [wDev] }

/-- A receiver whose name is the single uppercase letter `A`. -/
def cexRecvUp : ReceiverH :=
  { name := "A", serial := none, rcount := 0, slot := fun _ => none, devices := [] }

/-- Device paired at slot 1 of `cex3R`. -/
def cex3D0 : DeviceH := { serial := "s0", codename := "c0", kind := "k", name := "Zero" }

/-- First iterated device of `cex3R`; its serial equals the token `"1"`. -/
def cex3D1 : DeviceH := { serial := "1", codename := "c1", kind := "k", name := "One" }

/-- Second iterated device of `cex3R`; its serial equals the token `"1"`. -/
def cex3D2 : DeviceH := { serial := "1", codename := "c2", kind := "k", name := "Two" }

/-- Third iterated device of `cex3R`, beyond the reported count. -/
def cex3D3 : DeviceH := { serial := "1", codename := "c3", kind := "k", name := "Three" }

/-- A receiver reporting two paired devices, with a device at slot 1 and
an iteration producing three devices. -/
def cex3R : ReceiverH :=
  { name := "r", serial := none, rcount := 2,
    slot := fun n => if n = 1 then some cex3D0 else none,
    devices := [cex3D1, cex3D2, cex3D3] }

/-- First iterated device of `cex5R`; its name contains "mouse". -/
def cexM1 : DeviceH :=
  { serial := "sA", codename := "cA", kind := "k", name := "Wireless Mouse One" }

/-- Second iterated device of `cex5R`; its name also contains "mouse". -/
def cexM2 : DeviceH :=
  { serial := "sB", codename := "cB", kind := "k", name := "Wireless Mouse Two" }

/-- A receiver reporting one paired device while its iteration produces
two mouse-named devices. -/
def cex5R : ReceiverH :=
  { name := "r", serial := none, rcount := 1, slot := fun _ => none,
    devices := [cexM1, cexM2] }

/-- A device whose serial equals the slot token `"1"` and that is paired
at slot 1 of `wR9`. -/
def w9D : DeviceH := { serial := "1", codename := "c", kind := "k", name := "Niner" }

/-- A receiver holding `w9D` at slot 1 and iterating exactly over it. -/
def wR9 : ReceiverH :=
  { name := "r", serial := none, rcount := 1,
    slot := fun n => if n = 1 then some w9D else none, devices := [w9D] }

/-- A receiver reporting zero paired devices whose iteration nonetheless
produces two devices. -/
def wR10 : ReceiverH :=
  { name := "r", serial := none, rcount := 0, slot := fun _ => none,
    devices := [cexM1, cexM2] }

/-- A descriptor whose construction returns a falsy handle. -/
def wInfoA : DevInfo := { path := "/dev/hidraw0", isDevice := false }

/-- A descriptor whose construction raises. -/
def wInfoB : DevInfo := { path := "/dev/hidraw1", isDevice := true }

/-- A construction oracle: device descriptors raise `"boom"`, receiver
descriptors build a falsy handle. -/
def wCreate : DevInfo → BuildResult := fun i =>
  if i.isDevice then BuildResult.raised "boom" else BuildResult.built none

lemma leadsWith_self : ∀ l : List Char, leadsWith l l = true := by
  intro l
  induction l with
  | nil => rfl
  | cons a t ih => simp [leadsWith, ih]

lemma containsSub_append_self (pat : List Char) :
    ∀ pre : List Char, containsSub pat (pre ++ pat) = true := by
  intro pre
  induction pre with
  | nil =>
    cases pat with
    | nil => rfl
    | cons c t => simp [containsSub, leadsWith_self]
  | cons c t ih =>
    show (leadsWith pat (c :: (t ++ pat)) || containsSub pat (t ++ pat)) = true
    simp [ih]

lemma receiverMatches_iff (name : String) (r : ReceiverH) :
    receiverMatches name r = true ↔ receiverMatchProp name r := by
  unfold receiverMatches receiverMatchProp
  cases h : r.serial with
  | none => simp [h]
  | some s => simp [h]

lemma slotLookup_of_not_truthy (number : Option Nat) (r : ReceiverH)
    (h : numberTruthy number = false) : slotLookup number r = [] := by
  cases number with
  | none => rfl
  | some n =>
    simp [numberTruthy] at h
    simp [slotLookup, h]

lemma slotLookup_length_le (number : Option Nat) (r : ReceiverH) :
    (slotLookup number r).length ≤ 1 := by
  cases number with
  | none => simp [slotLookup]
  | some n =>
    by_cases hn : n = 0
    · simp [slotLookup, hn]
    · simp only [slotLookup]
      rw [if_pos (by simpa using hn)]
      cases r.slot n <;> simp

lemma scanDevices_length_le (name : String) :
    ∀ (count : Int) (l : List DeviceH), 0 < count →
      (scanDevices name count l).length ≤ count.toNat := by
  intro count l
  induction l generalizing count with
  | nil => intro h; simp [scanDevices]
  | cons d ds ih =>
    intro h
    unfold scanDevices
    by_cases hz : count - 1 = 0
    · have : count = 1 := by omega
      subst this
      split <;> simp
    · rw [if_neg hz]
      have h1 : 0 < count - 1 := by omega
      have := ih (count - 1) h1
      have hlen : (if deviceMatches name d then [d] else []).length ≤ 1 := by
        split <;> simp
      have htn : (count - 1).toNat + 1 = count.toNat := by omega
      calc ((if deviceMatches name d then [d] else []) ++
              scanDevices name (count - 1) ds).length
          = (if deviceMatches name d then [d] else []).length +
              (scanDevices name (count - 1) ds).length := by
            simp
        _ ≤ 1 + (count - 1).toNat := by omega
        _ = count.toNat := by omega

lemma scanDevices_eq_filter (name : String) :
    ∀ (count : Int) (l : List DeviceH),
      scanDevices name count l = (examined count l).filter (deviceMatches name) := by
  intro count l
  induction l generalizing count with
  | nil => simp [scanDevices, examined]
  | cons d ds ih =>
    unfold scanDevices examined
    by_cases hz : count - 1 = 0
    · rw [if_pos hz, if_pos hz]
      simp [List.filter_cons]
    · rw [if_neg hz, if_neg hz]
      rw [List.filter_cons, ih (count - 1)]
      split <;> simp

lemma examined_of_nonpos : ∀ (count : Int) (l : List DeviceH), count ≤ 0 →
    examined count l = l := by
  intro count l
  induction l generalizing count with
  | nil => intro _; rfl
  | cons d ds ih =>
    intro h
    unfold examined
    rw [if_neg (by omega)]
    rw [ih (count - 1) (by omega)]

/-- Claim C1: for every token passed to `_find_device`, the slot-number
lookup is performed if and only if the token is exactly one character
parsing as an integer `n` with `1 ≤ n ≤ 6` (in which case the loop queries
`r[n]` on each receiver and yields the result when non-null); for `"0"`,
for a single character parsing above 6, for a non-numeric token, and for
any longer token, the slot lookup is skipped and the receiver's entry
reduces to the ordinary name/serial/codename/kind scan. -/
theorem slot_interpretation_iff (name : String) :
    (numberTruthy (slotNumber name) = true ↔
      ∃ c n, strChars name = [c] ∧ charToDigit c = some n ∧ 1 ≤ n ∧ n ≤ 6)
    ∧ (∀ (r : ReceiverH) (n : Nat), slotNumber name = some n → n ≠ 0 →
        findDeviceFrom name (slotNumber name) (Handle.recv r) =
          (r.slot n).toList ++ scanDevices name r.rcount r.devices)
    ∧ (numberTruthy (slotNumber name) = false →
        ∀ r : ReceiverH,
          findDeviceFrom name (slotNumber name) (Handle.recv r) =
            scanDevices name r.rcount r.devices) := by
  refine ⟨?_, ?_, ?_⟩
  · cases hl : strChars name with
    | nil => simp [slotNumber, numberTruthy, hl]
    | cons c t =>
      cases t with
      | nil =>
        cases hd : charToDigit c with
        | none => simp [slotNumber, numberTruthy, hl, hd]
        | some n =>
          by_cases h6 : n > 6
          · simp only [slotNumber, hl, hd, if_pos h6, numberTruthy]
            constructor
            · intro h; exact absurd h (by simp)
            · rintro ⟨c2, n2, hc, hd2, h1, h2⟩
              obtain rfl : c = c2 := by simpa using hc
              rw [hd] at hd2
              obtain rfl : n = n2 := by simpa using hd2
              omega
          · simp only [slotNumber, hl, hd, if_neg h6, numberTruthy]
            constructor
            · intro h
              refine ⟨c, n, rfl, hd, ?_, by omega⟩
              have : n ≠ 0 := by simpa using h
              omega
            · rintro ⟨c2, n2, hc, hd2, h1, h2⟩
              obtain rfl : c = c2 := by simpa using hc
              rw [hd] at hd2
              obtain rfl : n = n2 := by simpa using hd2
              simpa using (by omega : n ≠ 0)
      | cons c2 t2 => simp [slotNumber, numberTruthy, hl]
  · intro r n hn hz
    rw [hn]
    simp only [findDeviceFrom, slotLookup]
    rw [if_pos (by simpa using hz)]
    cases r.slot n <;> simp
  · intro h r
    simp only [findDeviceFrom]
    rw [slotLookup_of_not_truthy _ _ h]
    simp

/-- Witness for `slot_interpretation_iff`: token `"3"` triggers the slot
query on a concrete receiver, token `"0"` falls through to the plain
scan. -/
theorem slot_interpretation_iff_witness :
    (findDeviceFrom "3" (slotNumber "3") (Handle.recv wRecv) =
      (wRecv.slot 3).toList ++ scanDevices "3" wRecv.rcount wRecv.devices)
    ∧ (findDeviceFrom "0" (slotNumber "0") (Handle.recv wRecv) =
      scanDevices "0" wRecv.rcount wRecv.devices) :=
  ⟨(slot_interpretation_iff "3").2.1 wRecv 3 (by decide) (by decide),
   (slot_interpretation_iff "0").2.2 (by decide) wRecv⟩

/-- Claim C2 counterexample: for the uppercase token `"A"` and a receiver
named `"A"`, the name does contain the token case-insensitively (both
lowered sides coincide), yet `_find_receiver` returns `None`, because the
code lowers only the receiver's fields and compares the token verbatim. -/
theorem find_receiver_cex :
    containsSub (lowerStr "A") (lowerStr cexRecvUp.name) = true ∧
    find_receiver [cexRecvUp] "A" = none :=
  ⟨by decide, rfl⟩

/-- Claim C2 (amended): for every non-empty receiver sequence and non-empty
token, `_find_receiver` returns the first receiver (in input order) whose
lowercased name contains the token verbatim as a substring, or whose serial
is non-null and whose lowercased serial equals the token verbatim; it
returns `None` when no receiver qualifies.  (This is case-insensitive
matching only when the token is already lowercase; the token itself is
never lowered.) -/
theorem find_receiver_first_match (receivers : List ReceiverH) (name : String)
    (hr : receivers ≠ []) (hn : name ≠ "") :
    (∀ r, find_receiver receivers name = some r →
        receiverMatchProp name r ∧
        ∃ pre suf, receivers = pre ++ r :: suf ∧
          ∀ q ∈ pre, ¬ receiverMatchProp name q)
    ∧ (find_receiver receivers name = none ↔
        ∀ r ∈ receivers, ¬ receiverMatchProp name r) := by
  constructor
  · intro r h
    rw [find_receiver, List.find?_eq_some] at h
    obtain ⟨hmatch, pre, suf, heq, hpre⟩ := h
    refine ⟨(receiverMatches_iff name r).mp hmatch, pre, suf, heq, ?_⟩
    intro q hq hcontra
    have := hpre q hq
    rw [(receiverMatches_iff name q).mpr hcontra] at this
    simp at this
  · rw [find_receiver, List.find?_eq_none]
    constructor
    · intro h r hr hcontra
      exact h r hr ((receiverMatches_iff name r).mpr hcontra)
    · intro h r hr hcontra
      exact h r hr ((receiverMatches_iff name r).mp hcontra)

/-- Witness for `find_receiver_first_match` on a concrete receiver list
and token. -/
theorem find_receiver_first_match_witness :
    find_receiver [cex5R] "mouse" = none ↔
      ∀ r ∈ [cex5R], ¬ receiverMatchProp "mouse" r :=
  (find_receiver_first_match [cex5R] "mouse" (by simp) (by decide)).2

/-- Claim C3 counterexample: a receiver reporting `count() = 2` from which
`_find_device` yields three devices for the token `"1"`: the eager slot-1
query yields one device, and the count-bounded scan yields two more whose
serial equals the token. -/
theorem find_device_count2_cex :
    cex3R.rcount = 2 ∧
    find_device [Handle.recv cex3R] "1" = [cex3D0, cex3D1, cex3D2] ∧
    (find_device [Handle.recv cex3R] "1").length = 3 := by
  decide

/-- Claim C3 (amended): for a receiver reporting `count() = 2`, the
count-bounded name-matching scan yields at most 2 devices; the eager slot
query can add at most one more, so `_find_device` yields at most 3 devices
from that receiver in total, and at most 2 whenever the token is not
treated as a nonzero slot number. -/
theorem find_device_count2_bound (r : ReceiverH) (name : String)
    (h : r.rcount = 2) :
    (scanDevices name r.rcount r.devices).length ≤ 2
    ∧ (findDeviceFrom name (slotNumber name) (Handle.recv r)).length ≤ 3
    ∧ (numberTruthy (slotNumber name) = false →
        (findDeviceFrom name (slotNumber name) (Handle.recv r)).length ≤ 2) := by
  have hpos : (0 : Int) < r.rcount := by rw [h]; norm_num
  have hscan := scanDevices_length_le name r.rcount r.devices hpos
  rw [h] at hscan
  have hscan2 : (scanDevices name r.rcount r.devices).length ≤ 2 := by
    rw [h]
    simpa using hscan
  refine ⟨hscan2, ?_, ?_⟩
  · have hslot := slotLookup_length_le (slotNumber name) r
    simp only [findDeviceFrom, List.length_append]
    omega
  · intro hft
    simp only [findDeviceFrom]
    rw [slotLookup_of_not_truthy _ _ hft]
    simpa using hscan2

/-- Witness for `find_device_count2_bound` on a concrete receiver reporting
two paired devices. -/
theorem find_device_count2_bound_witness :
    (findDeviceFrom "1" (slotNumber "1") (Handle.recv cex3R)).length ≤ 3 :=
  (find_device_count2_bound cex3R "1" (by decide)).2.1

/-- Claim C4: for the token `"3"` and a handle list headed by a receiver
with a non-null device paired at slot 3, `_find_device` yields that device
first — before the name-matching scan of the same receiver and regardless
of the device's name. -/
theorem find_device_slot3_first (r : ReceiverH) (hs : List Handle)
    (d : DeviceH) (h : r.slot 3 = some d) :
    find_device (Handle.recv r :: hs) "3" =
      d :: (scanDevices "3" r.rcount r.devices ++
        hs.flatMap (findDeviceFrom "3" (slotNumber "3"))) := by
  have h3 : slotNumber "3" = some 3 := by decide
  simp only [find_device, List.flatMap_cons, findDeviceFrom, h3, slotLookup, h]
  simp

/-- Witness for `find_device_slot3_first` on a concrete receiver. -/
theorem find_device_slot3_first_witness :
    find_device [Handle.recv wRecv] "3" =
      wDev :: (scanDevices "3" wRecv.rcount wRecv.devices ++
        List.flatMap [] (findDeviceFrom "3" (slotNumber "3"))) :=
  find_device_slot3_first wRecv [] wDev rfl

/-- Claim C5 counterexample: for the token `"mouse"`, a receiver reporting
`count() = 1` whose iteration produces two devices with "mouse" in their
names yields only the first one — the second matching device is cut off by
the count bound, so not every mouse-named device is yielded. -/
theorem find_device_mouse_cex :
    containsSub (strChars "mouse") (lowerStr cexM2.name) = true ∧
    find_device [Handle.recv cex5R] "mouse" = [cexM1] ∧
    cexM2 ∉ find_device [Handle.recv cex5R] "mouse" := by
  decide

/-- Claim C5 (amended): for the token `"mouse"`, `_find_device` yields, in
receiver-then-device enumeration order, exactly the matching devices among
those its count-bounded scan examines: the first `count()` devices of each
receiver (all of them when the decremented counter never reaches zero) and
each wired device.  In particular every examined device whose lowercased
name contains "mouse" is yielded; a mouse-named device beyond a receiver's
reported count is not. -/
theorem find_device_mouse_all (handles : List Handle) :
    find_device handles "mouse" =
      handles.flatMap (fun h => (examinedOf h).filter (deviceMatches "mouse"))
    ∧ ∀ h ∈ handles, ∀ d ∈ examinedOf h,
        containsSub (strChars "mouse") (lowerStr d.name) = true →
        d ∈ find_device handles "mouse" := by
  have hnum : slotNumber "mouse" = none := by decide
  have hfun : ∀ h : Handle,
      findDeviceFrom "mouse" (slotNumber "mouse") h =
        (examinedOf h).filter (deviceMatches "mouse") := by
    intro h
    cases h with
    | recv r =>
      simp only [findDeviceFrom, hnum, slotLookup, examinedOf]
      rw [scanDevices_eq_filter]
      simp
    | wired d =>
      simp only [findDeviceFrom, examinedOf]
      rw [scanDevices_eq_filter]
      rfl
  have heq : find_device handles "mouse" =
      handles.flatMap (fun h => (examinedOf h).filter (deviceMatches "mouse")) := by
    unfold find_device
    congr 1
    funext h
    exact hfun h
  refine ⟨heq, ?_⟩
  intro h hh d hd hname
  rw [heq]
  rw [List.mem_flatMap]
  refine ⟨h, hh, ?_⟩
  rw [List.mem_filter]
  refine ⟨hd, ?_⟩
  simp [deviceMatches, hname]

/-- Witness for `find_device_mouse_all`: a wired mouse is yielded. -/
theorem find_device_mouse_all_witness :
    wDev ∈ find_device [Handle.wired wDev] "mouse" :=
  (find_device_mouse_all [Handle.wired wDev]).2 (Handle.wired wDev) (by simp)
    wDev (by simp [examinedOf]) (by decide)

/-- Claim C6: whenever `run` determines a registered action and the built
handle list is empty, it terminates with a failure exit (status 1, hence
non-zero) whose error-stream message mentions "No supported device found". -/
theorem run_empty_handles_error (cliArgs : List String) (ep : ParsedArgs)
    (enumRecv enumBoth : Except String (List Handle)) (action : String)
    (ha : determinedAction cliArgs ep = some action)
    (hv : action ∈ actionsList)
    (he : (if usesDeviceEnumeration action then enumBoth else enumRecv) =
      Except.ok []) :
    run cliArgs ep enumRecv enumBoth =
      Outcome.errorExit 1 (programName ++ ": error: " ++ formatExc noDeviceMessage)
    ∧ containsSub (strChars "No supported device found")
        (strChars (programName ++ ": error: " ++ formatExc noDeviceMessage)) = true
    ∧ (1 : Nat) ≠ 0 := by
  refine ⟨?_, by decide, by decide⟩
  simp only [run, ha]
  rw [if_pos hv, he]

/-- Witness for `run_empty_handles_error`: `solaar show` with no hardware
present. -/
theorem run_empty_handles_error_witness :
    run ["show"] ⟨[], none⟩ (Except.ok []) (Except.ok []) =
      Outcome.errorExit 1 (programName ++ ": error: " ++ formatExc noDeviceMessage) :=
  (run_empty_handles_error ["show"] ⟨[], none⟩ (Except.ok []) (Except.ok [])
    "show" rfl (by decide) rfl).1

/-- Claim C7: a construction exception raised for any non-filtered
descriptor aborts the build with the composed message
`"solaar: error: <exception text>"` (which contains the original exception
text), never producing a truncated handle list; and when no construction
raises, the build succeeds with exactly the non-falsy handles, falsy
results being filtered out without error. -/
theorem build_exception_fatal (create : DevInfo → BuildResult)
    (devPath : Option String) :
    (∀ (pre : List DevInfo) (i : DevInfo) (post : List DevInfo) (e : String),
        (∀ j ∈ pre, skipByPath devPath j = true ∨
          ∃ h, create j = BuildResult.built h) →
        skipByPath devPath i = false →
        create i = BuildResult.raised e →
        buildHandles create devPath (pre ++ i :: post) =
          Except.error (programName ++ ": error: " ++ e)
        ∧ containsSub (strChars e)
            (strChars (programName ++ ": error: " ++ e)) = true)
    ∧ (∀ infos : List DevInfo,
        (∀ j ∈ infos, skipByPath devPath j = true ∨
          ∃ h, create j = BuildResult.built h) →
        buildHandles create devPath infos =
          Except.ok (goodHandles create devPath infos)) := by
  have hsub : ∀ e : String,
      containsSub (strChars e) (strChars (programName ++ ": error: " ++ e)) = true := by
    intro e
    show containsSub e.data ((programName ++ ": error: " ++ e).data) = true
    rw [String.data_append]
    exact containsSub_append_self e.data (programName ++ ": error: ").data
  constructor
  · intro pre i post e hpre hskip hex
    refine ⟨?_, hsub e⟩
    induction pre with
    | nil =>
      simp only [List.nil_append, buildHandles]
      rw [if_neg (by simp [hskip]), hex]
    | cons j js ih =>
      have hj := hpre j (by simp)
      have hrest : ∀ k ∈ js, skipByPath devPath k = true ∨
          ∃ h, create k = BuildResult.built h := by
        intro k hk
        exact hpre k (by simp [hk])
      have ihr := ih hrest
      cases hj with
      | inl hsk =>
        simp only [List.cons_append, buildHandles]
        rw [if_pos hsk]
        exact ihr
      | inr hb =>
        obtain ⟨h, hbj⟩ := hb
        simp only [List.cons_append, buildHandles]
        by_cases hsk : skipByPath devPath j = true
        · rw [if_pos hsk]
          exact ihr
        · rw [if_neg hsk, hbj]
          cases h with
          | none => exact ihr
          | some hh =>
            have ih2 : buildHandles create devPath (js.append (i :: post)) =
                Except.error (programName ++ ": error: " ++ e) := ihr
            rw [ih2]
  · intro infos hok
    induction infos with
    | nil => simp [buildHandles, goodHandles]
    | cons j js ih =>
      have hrest : ∀ k ∈ js, skipByPath devPath k = true ∨
          ∃ h, create k = BuildResult.built h := by
        intro k hk
        exact hok k (by simp [hk])
      have ihr := ih hrest
      have hj := hok j (by simp)
      by_cases hsk : skipByPath devPath j = true
      · simp only [buildHandles, goodHandles]
        rw [if_pos hsk]
        rw [List.filter_cons]
        rw [if_neg (by simp [hsk])]
        exact ihr
      · have hskf : skipByPath devPath j = false := by
          simpa using hsk
        cases hj with
        | inl h => exact absurd h hsk
        | inr hb =>
          obtain ⟨h, hbj⟩ := hb
          simp only [buildHandles, goodHandles]
          rw [if_neg (by simp [hskf]), hbj]
          rw [List.filter_cons]
          rw [if_pos (by simp [hskf])]
          rw [List.filterMap_cons, hbj]
          cases h with
          | none => exact ihr
          | some hh =>
            rw [ihr]
            rfl

/-- Witness for `build_exception_fatal`: a falsy construction is skipped,
then a raising construction aborts with the composed message. -/
theorem build_exception_fatal_witness :
    buildHandles wCreate none [wInfoA, wInfoB] =
      Except.error (programName ++ ": error: " ++ "boom")
    ∧ containsSub (strChars "boom")
        (strChars (programName ++ ": error: " ++ "boom")) = true :=
  (build_exception_fatal wCreate none).1 [wInfoA] wInfoB [] "boom"
    (by intro j hj
        simp only [List.mem_singleton] at hj
        subst hj
        exact Or.inr ⟨none, rfl⟩)
    rfl rfl

/-- Claim C8: invoking `run` with an empty CLI-token sequence when the
parsed arguments carry no action marker prints the usage text followed by
an error line on the error stream and exits with status 2. -/
theorem run_no_args_usage_exit (ep : ParsedArgs)
    (enumRecv enumBoth : Except String (List Handle))
    (h : "cmd" ∉ ep.attrs) :
    run [] ep enumRecv enumBoth =
      Outcome.usageExit 2
        (usageMessage ++ programName ++ ": error: too few arguments\n") := by
  unfold run determinedAction
  rw [if_neg h]

/-- Witness for `run_no_args_usage_exit`: empty invocation with an empty
parsed namespace. -/
theorem run_no_args_usage_exit_witness :
    run [] ⟨[], none⟩ (Except.ok []) (Except.ok []) =
      Outcome.usageExit 2
        (usageMessage ++ programName ++ ": error: too few arguments\n") :=
  run_no_args_usage_exit ⟨[], none⟩ (Except.ok []) (Except.ok []) (by simp)

/-- Claim C9: when the token is a nonzero slot number, the slot-`n` device
is non-null, and that same device also passes the name/serial/codename/kind
match within the count bound of the scan, `_find_device` yields it twice
for that receiver: once from the eager slot query (at the head) and once
again from the scan. -/
theorem find_device_slot_duplicate (name : String) (r : ReceiverH) (n : Nat)
    (d : DeviceH)
    (h1 : slotNumber name = some n) (h2 : n ≠ 0)
    (h3 : r.slot n = some d)
    (h4 : d ∈ scanDevices name r.rcount r.devices) :
    findDeviceFrom name (slotNumber name) (Handle.recv r) =
      d :: scanDevices name r.rcount r.devices
    ∧ 2 ≤ List.count d (findDeviceFrom name (slotNumber name) (Handle.recv r)) := by
  have heq : findDeviceFrom name (slotNumber name) (Handle.recv r) =
      d :: scanDevices name r.rcount r.devices := by
    simp only [findDeviceFrom, slotLookup, h1]
    rw [if_pos (by simpa using h2), h3]
    simp
  refine ⟨heq, ?_⟩
  rw [heq, List.count_cons_self]
  have : 0 < List.count d (scanDevices name r.rcount r.devices) :=
    List.count_pos_iff.mpr h4
  omega

/-- Witness for `find_device_slot_duplicate`: a device with serial `"1"`
paired at slot 1 is yielded twice for the token `"1"`. -/
theorem find_device_slot_duplicate_witness :
    findDeviceFrom "1" (slotNumber "1") (Handle.recv wR9) =
      w9D :: scanDevices "1" wR9.rcount wR9.devices :=
  (find_device_slot_duplicate "1" wR9 1 w9D (by decide) (by decide) rfl
    (by decide)).1

/-- Claim C10: for a receiver reporting `count() = 0`, the count-based
early termination never fires: the counter is decremented past zero into
negative values, so the scan examines every device the receiver's
iteration produces and yields exactly the matching ones — the reported
count does not truncate the scan. -/
theorem find_device_count_zero_scans_all (name : String) (number : Option Nat)
    (r : ReceiverH) (h : r.rcount = 0) :
    examined r.rcount r.devices = r.devices
    ∧ scanDevices name r.rcount r.devices = r.devices.filter (deviceMatches name)
    ∧ findDeviceFrom name number (Handle.recv r) =
        slotLookup number r ++ r.devices.filter (deviceMatches name) := by
  have hex : examined r.rcount r.devices = r.devices :=
    examined_of_nonpos r.rcount r.devices (by omega)
  have hscan : scanDevices name r.rcount r.devices =
      r.devices.filter (deviceMatches name) := by
    rw [scanDevices_eq_filter, hex]
  exact ⟨hex, hscan, by simp only [findDeviceFrom, hscan]⟩

/-- Witness for `find_device_count_zero_scans_all`: a zero-count receiver
iterating over two mouse devices has both examined and yielded. -/
theorem find_device_count_zero_scans_all_witness :
    scanDevices "mouse" wR10.rcount wR10.devices =
      wR10.devices.filter (deviceMatches "mouse") :=
  (find_device_count_zero_scans_all "mouse" none wR10 rfl).2.1
